import Mathlib

/-!
Verification of the knowledge-graph visualizer API server
(`kg-frontend/src/server.py`): a shallow embedding of the FastAPI
endpoint handlers over an explicit model of the Neo4j store, followed
by theorems settling the specification's claims about them.

Conventions of the embedding:
- Neo4j node ids are modelled as `Nat` (store-assigned, non-negative).
- Python `str(n)` on a non-negative integer is modelled by
  `natToDecString` (decimal representation).
- Python `int(s)` is modelled by `pyInt` (optional surrounding
  whitespace, optional sign, ASCII digits with single underscores
  allowed between digits).
- A Neo4j session is modelled by a `Store` value carrying the Concept
  rows, the edge rows, and per-query failure injection slots (a query
  either returns its rows or raises with a message).
- Python exceptions are modelled by `PyExc`; `strOfExc` models
  Python's `str(e)` for the exception classes the handlers can see
  (Starlette's `HTTPException.__str__` is `f"{status_code}: {detail}"`).
-/

/-- Decimal digits of `n`, least significant first, with descending fuel
(structural recursion so that concrete evaluation reduces in the kernel). -/
def natDigitsRevAux : Nat → Nat → List Char
  | _, 0 => []
  | n, fuel + 1 =>
    if n < 10 then [Nat.digitChar n]
    else Nat.digitChar (n % 10) :: natDigitsRevAux (n / 10) fuel

/-- Model of Python `str(n)` for a non-negative integer `n`: its decimal
representation. -/
def natToDecString (n : Nat) : String :=
  ⟨(natDigitsRevAux n (n + 1)).reverse⟩

/-- Value of a least-significant-first digit-character list (decoder used to
prove `natToDecString` injective). -/
def decValRev : List Char → Nat
  | [] => 0
  | c :: rest => (c.toNat - 48) + 10 * decValRev rest

/-- Model of Python `str(i)` for a possibly negative integer. -/
def intToDecString (i : Int) : String :=
  if i < 0 then "-" ++ natToDecString i.natAbs else natToDecString i.natAbs

/-- `hasPrefixL p l` : `p` is a prefix of `l` (Boolean). -/
def hasPrefixL : List Char → List Char → Bool
  | [], _ => true
  | _ :: _, [] => false
  | c :: cs, d :: ds => c == d && hasPrefixL cs ds

/-- `containsL n l` : `n` occurs as a contiguous sublist of `l` (Boolean). -/
def containsL (needle : List Char) : List Char → Bool
  | [] => needle.isEmpty
  | c :: rest => hasPrefixL needle (c :: rest) || containsL needle rest

/-- `strContainsB hay needle` : `needle` occurs as a substring of `hay`
(models Cypher `CONTAINS`, and substring claims about error details). -/
def strContainsB (hay needle : String) : Bool :=
  containsL needle.toList hay.toList

/-- Number of occurrences of character `c` in `s`. -/
def countChar (c : Char) (s : String) : Nat :=
  (s.toList.filter (fun d => d == c)).length

/-- Valid continuation of a Python integer literal run: digits with single
underscores allowed only between digits. -/
def validRunAux : List Char → Bool
  | [] => true
  | [c] => c.isDigit
  | c :: d :: rest =>
    if c.isDigit then validRunAux (d :: rest)
    else c == '_' && d.isDigit && validRunAux rest

/-- Valid Python base-10 integer digit token: non-empty, starts with a digit,
underscores only between digits. -/
def pyIntToken : List Char → Bool
  | [] => false
  | c :: rest => c.isDigit && validRunAux rest

/-- Numeric value of a digit run, skipping underscores. -/
def digitsVal : List Char → Nat → Nat
  | [], acc => acc
  | c :: rest, acc =>
    if c.isDigit then digitsVal rest (acc * 10 + (c.toNat - 48)) else digitsVal rest acc

/-- Model of Python `int(s)` on a string: strips surrounding whitespace,
accepts an optional sign followed by a digit run; `none` models the
`ValueError` raised on any other input. -/
def pyInt (s : String) : Option Int :=
  let core := ((s.toList.dropWhile Char.isWhitespace).reverse.dropWhile
      Char.isWhitespace).reverse
  match core with
  | '+' :: rest =>
    if pyIntToken rest then some (Int.ofNat (digitsVal rest 0)) else none
  | '-' :: rest =>
    if pyIntToken rest then some (-(Int.ofNat (digitsVal rest 0))) else none
  | rest =>
    if pyIntToken rest then some (Int.ofNat (digitsVal rest 0)) else none

/-- A row of the Concept-node query: store id and `name` property. -/
structure NodeRow where
  id : Nat
  name : String
deriving DecidableEq

/-- A row of the edge query: endpoint ids and the edge-type label. -/
structure LinkRow where
  source : Nat
  target : Nat
  type : String
deriving DecidableEq

/-- The observable state of the Neo4j store from the handlers' viewpoint:
the rows each query would return, plus one failure-injection slot per
query site (`some msg` means that query raises an exception with text
`msg`, as a Neo4j session may at any call). -/
structure Store where
  nodeRows : List NodeRow
  linkRows : List LinkRow
  nodesQErr : Option String
  linksQErr : Option String
  searchQErr : Option String
  statsNodesQErr : Option String
  statsRelsQErr : Option String
  createQErr : Option String
deriving DecidableEq

/-- Wire view of a node: `{"id": str(record["id"]), "name": record["name"]}`. -/
structure NodeView where
  id : String
  name : String
deriving DecidableEq

/-- Wire view of a link: string-encoded endpoints plus type. -/
structure LinkView where
  source : String
  target : String
  type : String
deriving DecidableEq

/-- Response model `GraphData` (`nodes`, `links`). -/
structure GraphData where
  nodes : List NodeView
  links : List LinkView
deriving DecidableEq

/-- Response model `Statistics` (`conceptCount`, `relationshipCount`). -/
structure Statistics where
  conceptCount : Nat
  relationshipCount : Nat
deriving DecidableEq

/-- Request model `RelationshipCreate` (`source`, `target`, `type`). -/
structure RelationshipCreate where
  source : String
  target : String
  type : String
deriving DecidableEq

/-- Wire view of a created relationship. -/
structure RelView where
  source : String
  target : String
  type : String
deriving DecidableEq

/-- An `HTTPException(status_code, detail)` surfaced to the client. -/
structure HTTPError where
  statusCode : Nat
  detail : String
deriving DecidableEq

/-- The Python exceptions the handlers can observe. -/
inductive PyExc where
  | httpException (statusCode : Nat) (detail : String)
  | valueError (msg : String)
  | osError (msg : String)
deriving DecidableEq

/-- Model of Python `str(e)`: Starlette `HTTPException.__str__` yields
`f"{status_code}: {detail}"`; for the others the message text. -/
def strOfExc : PyExc → String
  | .httpException code detail => natToDecString code ++ (": " ++ detail)
  | .valueError msg => msg
  | .osError msg => msg

/-- `{"id": str(record["id"]), "name": record["name"]}`. -/
def nodeToView (r : NodeRow) : NodeView :=
  ⟨natToDecString r.id, r.name⟩

/-- `{"source": str(...), "target": str(...), "type": record["type"]}`. -/
def linkToView (r : LinkRow) : LinkView :=
  ⟨natToDecString r.source, natToDecString r.target, r.type⟩

/-- Embedding of `get_graph_data` (GET /api/graph): run the nodes query,
then the links query, inside one `try`; any exception becomes a single
HTTP 500; otherwise both full lists are returned. -/
def get_graph_data (st : Store) : Except HTTPError GraphData :=
  match st.nodesQErr with
  | some msg => .error ⟨500, "Error fetching graph data: " ++ msg⟩
  | none =>
    match st.linksQErr with
    | some msg => .error ⟨500, "Error fetching graph data: " ++ msg⟩
    | none => .ok ⟨st.nodeRows.map nodeToView, st.linkRows.map linkToView⟩

/-- Embedding of `search_concepts` (GET /api/concepts/search): FastAPI
rejects an empty `q` (declared `Query(..., min_length=1)`) with a 422
validation error before the handler runs; the handler then returns the
Concept rows whose name `CONTAINS q`, `LIMIT 10`. -/
def search_concepts (st : Store) (q : String) : Except HTTPError (List NodeView) :=
  if q = "" then
    .error ⟨422, "ensure this value has at least 1 characters"⟩
  else
    match st.searchQErr with
    | some msg => .error ⟨500, "Error searching concepts: " ++ msg⟩
    | none =>
      .ok (((st.nodeRows.filter (fun r => strContainsB r.name q)).take 10).map nodeToView)

/-- Embedding of `get_statistics` (GET /api/statistics): Concept count,
then edge count, each query independently fallible; failures become 500. -/
def get_statistics (st : Store) : Except HTTPError Statistics :=
  match st.statsNodesQErr with
  | some msg => .error ⟨500, "Error fetching statistics: " ++ msg⟩
  | none =>
    match st.statsRelsQErr with
    | some msg => .error ⟨500, "Error fetching statistics: " ++ msg⟩
    | none => .ok ⟨st.nodeRows.length, st.linkRows.length⟩

/-- The leading fragment of the `create_relationship` Cypher template, up to
the opening backtick of the edge-type position. -/
def relQueryPre : String :=
  "\n                MATCH (a:Concept), (b:Concept)\n                WHERE id(a) = $source AND id(b) = $target\n                CREATE (a)-[r:`"

/-- The trailing fragment of the `create_relationship` Cypher template,
from the closing backtick of the edge-type position. -/
def relQueryPost : String :=
  "`]->(b)\n                RETURN id(a) AS source, id(b) AS target, type(r) AS type\n            "

/-- The statement actually sent to the store by `create_relationship`:
the source calls `template.format(relationship.type)`, splicing the
caller-supplied type verbatim between the two fragments. -/
def relationshipQuery (t : String) : String :=
  relQueryPre ++ t ++ relQueryPost

/-- Everything observable about one `create_relationship` call: the HTTP
response, the store afterwards (per the intended semantics of the
statement), and the statements that were issued to the store. -/
structure CreateOutcome where
  response : Except HTTPError RelView
  store : Store
  issued : List String

/-- Embedding of `create_relationship` (POST /api/relationships). Inside one
`try`: `int(source)` and `int(target)` are evaluated while building the
query parameters (a `ValueError` aborts before any statement is issued);
then the MATCH/CREATE statement runs; zero matched rows create no edge and
make `result.single()` empty, upon which the handler raises
`HTTPException(404, "Concepts not found")` — but that exception is caught
by the handler's own blanket `except Exception`, which re-raises
`HTTPException(500, "Error creating relationship: " + str(e))`. -/
def create_relationship (st : Store) (r : RelationshipCreate) : CreateOutcome :=
  match pyInt r.source with
  | none =>
    ⟨.error ⟨500, "Error creating relationship: " ++
        strOfExc (.valueError ("invalid literal for int() with base 10: " ++ r.source))⟩,
     st, []⟩
  | some s =>
    match pyInt r.target with
    | none =>
      ⟨.error ⟨500, "Error creating relationship: " ++
          strOfExc (.valueError ("invalid literal for int() with base 10: " ++ r.target))⟩,
       st, []⟩
    | some t =>
      match st.createQErr with
      | some msg =>
        ⟨.error ⟨500, "Error creating relationship: " ++ msg⟩, st, [relationshipQuery r.type]⟩
      | none =>
        if (st.nodeRows.any (fun n => (n.id : Int) == s)) &&
            (st.nodeRows.any (fun n => (n.id : Int) == t)) then
          ⟨.ok ⟨natToDecString s.toNat, natToDecString t.toNat, r.type⟩,
           { st with linkRows := st.linkRows ++ [⟨s.toNat, t.toNat, r.type⟩] },
           [relationshipQuery r.type]⟩
        else
          ⟨.error ⟨500, "Error creating relationship: " ++
              strOfExc (.httpException 404 "Concepts not found")⟩,
           st, [relationshipQuery r.type]⟩

/-- What happened to the external command `subprocess.run` was given:
either the OS could not spawn it, or it ran to completion with an exit
code and captured stdout/stderr. -/
inductive CmdOutcome where
  | spawnFailure (msg : String)
  | completed (exitCode : Nat) (stdout : String) (stderr : String)
deriving DecidableEq

/-- Embedding of `run_command`: `subprocess.run(..., check=True)` raises
`CalledProcessError` exactly on a non-zero exit code, which is caught and
re-raised as `HTTPException(500, "Command failed: " + e.stderr)`; a spawn
failure (`OSError`) is not caught here and propagates to the caller. -/
def run_command (o : CmdOutcome) : Except PyExc String :=
  match o with
  | .spawnFailure msg => .error (.osError msg)
  | .completed exitCode out err =>
    if exitCode = 0 then .ok out
    else .error (.httpException 500 ("Command failed: " ++ err))

/-- Request model `BuilderParams`. -/
structure BuilderParams where
  seedConcept : String
  maxNodes : Int
  timeout : Int
  randomRelationships : Int
  concurrency : Int
deriving DecidableEq

/-- Request model `EnricherParams`. -/
structure EnricherParams where
  batchSize : Int
  interval : Int
  maxRelationships : Int
  concurrency : Int
deriving DecidableEq

/-- Success body of every worker start/stop endpoint. -/
structure WorkerResp where
  status : String
  message : String
  output : String
deriving DecidableEq

/-- Everything observable about one worker start/stop call: the HTTP
response and the commands this call handed to `run_command`. -/
structure WorkerCall where
  response : Except HTTPError WorkerResp
  invoked : List (List String)

/-- The argument vector `start_builder` assembles. -/
def builderCommand (p : BuilderParams) : List String :=
  ["/bin/sh", "/app/start-builder.sh",
   "--seed", p.seedConcept,
   "--max-nodes", intToDecString p.maxNodes,
   "--timeout", intToDecString p.timeout,
   "--random-relationships", intToDecString p.randomRelationships,
   "--concurrency", intToDecString p.concurrency]

/-- The argument vector `start_enricher` assembles. -/
def enricherCommand (p : EnricherParams) : List String :=
  ["/bin/sh", "/app/start-enricher.sh",
   "--batch-size", intToDecString p.batchSize,
   "--interval", intToDecString p.interval,
   "--max-relationships", intToDecString p.maxRelationships,
   "--concurrency", intToDecString p.concurrency]

/-- Embedding of `start_builder` (POST /api/builder/start): builds the
command and runs it unconditionally — the handler consults no state about
whether the builder is already running. Any exception out of
`run_command` (including the `HTTPException(500, "Command failed: ...")`
it raised itself) is caught by the blanket `except Exception` and wrapped
as `HTTPException(500, "Error starting builder: " + str(e))`. -/
def start_builder (p : BuilderParams) (o : CmdOutcome) : WorkerCall :=
  ⟨match run_command o with
    | .ok out => .ok ⟨"success", "Builder started successfully", out⟩
    | .error e => .error ⟨500, "Error starting builder: " ++ strOfExc e⟩,
   [builderCommand p]⟩

/-- Embedding of `start_enricher` (POST /api/enricher/start), same shape as
`start_builder`. -/
def start_enricher (p : EnricherParams) (o : CmdOutcome) : WorkerCall :=
  ⟨match run_command o with
    | .ok out => .ok ⟨"success", "Enricher started successfully", out⟩
    | .error e => .error ⟨500, "Error starting enricher: " ++ strOfExc e⟩,
   [enricherCommand p]⟩

/-- Embedding of `stop_builder` (POST /api/builder/stop). -/
def stop_builder (o : CmdOutcome) : WorkerCall :=
  ⟨match run_command o with
    | .ok out => .ok ⟨"success", "Builder stopped successfully", out⟩
    | .error e => .error ⟨500, "Error stopping builder: " ++ strOfExc e⟩,
   [["/bin/sh", "/app/stop-builder.sh"]]⟩

/-- Embedding of `stop_enricher` (POST /api/enricher/stop). -/
def stop_enricher (o : CmdOutcome) : WorkerCall :=
  ⟨match run_command o with
    | .ok out => .ok ⟨"success", "Enricher stopped successfully", out⟩
    | .error e => .error ⟨500, "Error stopping enricher: " ++ strOfExc e⟩,
   [["/bin/sh", "/app/stop-enricher.sh"]]⟩

/-- Modelled from the spec: the behaviour of the external stop scripts
(`/app/stop-builder.sh`, `/app/stop-enricher.sh`), which are not in the
repository sources. Per the spec, "calling stop while already stopped is
accepted and returns success (idempotent)", so the script exits 0 whether
or not a worker process is currently running. -/
def stopScriptOutcome (running : Bool) : CmdOutcome :=
  .completed 0 (if running then "terminated" else "no process running") ""

/-- The commands launched by a sequence of builder start calls, in order.
The server holds no per-worker state between calls, so the trace is simply
the concatenation of each call's invocations. -/
def supervisorTrace (calls : List (BuilderParams × CmdOutcome)) : List (List String) :=
  calls.foldl (fun acc c => acc ++ (start_builder c.1 c.2).invoked) []

/-- A store with no Concepts and no failure injection. -/
def emptyStore : Store := ⟨[], [], none, none, none, none, none, none⟩

/-- A small concrete store used to instantiate theorems. -/
def demoStore : Store :=
  ⟨[⟨0, "alpha"⟩, ⟨1, "beta"⟩], [⟨0, 1, "RELATED_TO"⟩],
   none, none, none, none, none, none⟩

/-- The graph view `get_graph_data` produces on `demoStore`. -/
def demoGraph : GraphData :=
  ⟨[⟨"0", "alpha"⟩, ⟨"1", "beta"⟩], [⟨"0", "1", "RELATED_TO"⟩]⟩

/-- A caller-supplied edge-type value that closes the backtick-quoted
token early and smuggles further clauses into the statement. -/
def injectionType : String :=
  "KNOWS`]->(b) WITH a MATCH (x) DETACH DELETE x //"

/-- Concrete builder parameters (the spec's own example). -/
def demoBuilderParams : BuilderParams := ⟨"Physics", 50, 60, 5, 2⟩

/-- Concrete enricher parameters. -/
def demoEnricherParams : EnricherParams := ⟨10, 60, 100, 2⟩

theorem digitChar_toNat {n : Nat} (h : n < 10) : (Nat.digitChar n).toNat = 48 + n := by
  interval_cases n <;> rfl

theorem decValRev_natDigitsRevAux :
    ∀ (fuel n : Nat), n < fuel → decValRev (natDigitsRevAux n fuel) = n := by
  intro fuel
  induction fuel with
  | zero => intro n h; omega
  | succ f ih =>
    intro n h
    simp only [natDigitsRevAux]
    by_cases h10 : n < 10
    · simp only [h10, if_true, decValRev]
      rw [digitChar_toNat h10]
      omega
    · simp only [h10, if_false, decValRev]
      have h1 : n / 10 < n := Nat.div_lt_self (by omega) (by omega)
      rw [ih (n / 10) (by omega), digitChar_toNat (Nat.mod_lt n (by omega))]
      omega

theorem natToDecString_injective : Function.Injective natToDecString := by
  intro a b h
  have hdata : (natDigitsRevAux a (a + 1)).reverse = (natDigitsRevAux b (b + 1)).reverse :=
    congrArg String.data h
  have hlists : natDigitsRevAux a (a + 1) = natDigitsRevAux b (b + 1) :=
    List.reverse_injective hdata
  have ha := decValRev_natDigitsRevAux (a + 1) a (Nat.lt_succ_self a)
  have hb := decValRev_natDigitsRevAux (b + 1) b (Nat.lt_succ_self b)
  rw [← ha, ← hb, hlists]

theorem hasPrefixL_refl : ∀ l : List Char, hasPrefixL l l = true := by
  intro l
  induction l with
  | nil => rfl
  | cons c t ih => simp [hasPrefixL, ih]

theorem containsL_self : ∀ n : List Char, containsL n n = true := by
  intro n
  cases n with
  | nil => rfl
  | cons c t => simp [containsL, hasPrefixL_refl]

theorem containsL_append_left :
    ∀ (s l n : List Char), containsL n l = true → containsL n (s ++ l) = true := by
  intro s
  induction s with
  | nil => intro l n h; simpa using h
  | cons c t ih => intro l n h; simp [containsL, ih l n h]

theorem strContainsB_self (e : String) : strContainsB e e = true :=
  containsL_self e.toList

theorem strContainsB_append_left (s t e : String) (h : strContainsB t e = true) :
    strContainsB (s ++ t) e = true := by
  have hd : (s ++ t).toList = s.toList ++ t.toList := String.data_append s t
  unfold strContainsB at h ⊢
  rw [hd]
  exact containsL_append_left _ _ _ h

theorem countChar_append (c : Char) (s t : String) :
    countChar c (s ++ t) = countChar c s + countChar c t := by
  unfold countChar
  rw [show (s ++ t).toList = s.toList ++ t.toList from String.data_append s t,
    List.filter_append, List.length_append]

/-- C6: `get_graph_data` either fully succeeds — returning the complete
node list and the complete link list assembled from the store rows — or
fails with a single error; no partial node/link response is ever
produced. -/
theorem c6_get_graph_all_or_nothing (st : Store) :
    get_graph_data st = .ok ⟨st.nodeRows.map nodeToView, st.linkRows.map linkToView⟩ ∨
    ∃ e, get_graph_data st = .error e := by
  rcases hn : st.nodesQErr with _ | m
  · rcases hl : st.linksQErr with _ | m2
    · exact Or.inl (by simp [get_graph_data, hn, hl])
    · exact Or.inr ⟨⟨500, "Error fetching graph data: " ++ m2⟩,
        by simp [get_graph_data, hn, hl]⟩
  · exact Or.inr ⟨⟨500, "Error fetching graph data: " ++ m⟩,
      by simp [get_graph_data, hn]⟩

/-- C8: in every successful `get_graph_data` response, each node's `id`
and each link's `source` and `target` are the decimal string encoding of
a store row's integer id, never raw integers. -/
theorem c8_graph_ids_string_encoded (st : Store) (g : GraphData)
    (h : get_graph_data st = .ok g) :
    (∀ v ∈ g.nodes, ∃ r ∈ st.nodeRows, v.id = natToDecString r.id ∧ v.name = r.name) ∧
    (∀ v ∈ g.links, ∃ r ∈ st.linkRows,
      v.source = natToDecString r.source ∧ v.target = natToDecString r.target ∧
      v.type = r.type) := by
  rcases hn : st.nodesQErr with _ | m
  · rcases hl : st.linksQErr with _ | m2
    · simp [get_graph_data, hn, hl] at h
      subst h
      constructor
      · intro v hv
        rcases List.mem_map.1 hv with ⟨r, hr, rfl⟩
        exact ⟨r, hr, rfl, rfl⟩
      · intro v hv
        rcases List.mem_map.1 hv with ⟨r, hr, rfl⟩
        exact ⟨r, hr, rfl, rfl, rfl⟩
    · simp [get_graph_data, hn, hl] at h
  · simp [get_graph_data, hn] at h

/-- C8 witness: the theorem applied to `demoStore`. -/
theorem c8_graph_ids_string_encoded_witness :
    get_graph_data demoStore = .ok demoGraph ∧
    ((∀ v ∈ demoGraph.nodes, ∃ r ∈ demoStore.nodeRows,
        v.id = natToDecString r.id ∧ v.name = r.name) ∧
     (∀ v ∈ demoGraph.links, ∃ r ∈ demoStore.linkRows,
        v.source = natToDecString r.source ∧ v.target = natToDecString r.target ∧
        v.type = r.type)) :=
  ⟨rfl, c8_graph_ids_string_encoded demoStore demoGraph rfl⟩

/-- C4: `search_concepts` rejects the empty query with a 422 validation
error (FastAPI `min_length=1`); every successful response holds at most
10 results, each of whose names contains the query as a substring. -/
theorem c4_search_bounds (st : Store) (q : String) :
    search_concepts st "" = .error ⟨422, "ensure this value has at least 1 characters"⟩ ∧
    (∀ res, search_concepts st q = .ok res →
      res.length ≤ 10 ∧ ∀ v ∈ res, strContainsB v.name q = true) := by
  constructor
  · rfl
  · intro res h
    by_cases hq : q = ""
    · subst hq; simp [search_concepts] at h
    · rcases hs : st.searchQErr with _ | m
      · simp [search_concepts, hq, hs] at h
        subst h
        constructor
        · rw [List.length_take]
          exact Nat.min_le_left _ _
        · intro v hv
          rcases List.mem_map.1 (List.mem_of_mem_take hv) with ⟨r, hr, rfl⟩
          exact (List.mem_filter.1 hr).2
      · simp [search_concepts, hq, hs] at h

/-- C4 witness: the theorem applied to `demoStore` and the query "al". -/
theorem c4_search_bounds_witness :
    search_concepts demoStore "al" = .ok [⟨"0", "alpha"⟩] ∧
    (([(⟨"0", "alpha"⟩ : NodeView)]).length ≤ 10 ∧
      ∀ v ∈ [(⟨"0", "alpha"⟩ : NodeView)], strContainsB v.name "al" = true) :=
  ⟨rfl, (c4_search_bounds demoStore "al").2 [⟨"0", "alpha"⟩] rfl⟩

/-- C9: on one store state (no concurrent writer) whose node ids are
distinct (they are store-assigned identities), the `conceptCount`
returned by `get_statistics` equals the number of distinct node ids in
the `get_graph_data` response. -/
theorem c9_concept_count_matches_graph (st : Store)
    (hnd : (st.nodeRows.map NodeRow.id).Nodup)
    (s : Statistics) (g : GraphData)
    (hs : get_statistics st = .ok s) (hg : get_graph_data st = .ok g) :
    s.conceptCount = (g.nodes.map NodeView.id).dedup.length := by
  rcases h1 : st.statsNodesQErr with _ | m
  · rcases h2 : st.statsRelsQErr with _ | m
    · rcases h3 : st.nodesQErr with _ | m
      · rcases h4 : st.linksQErr with _ | m
        · simp [get_statistics, h1, h2] at hs
          simp [get_graph_data, h3, h4] at hg
          subst hs
          subst hg
          have hmaps : (st.nodeRows.map nodeToView).map NodeView.id =
              (st.nodeRows.map NodeRow.id).map natToDecString := by
            simp only [List.map_map]
            rfl
          simp only [hmaps]
          rw [List.dedup_eq_self.2 (hnd.map natToDecString_injective),
            List.length_map, List.length_map]
        · simp [get_graph_data, h3, h4] at hg
      · simp [get_graph_data, h3] at hg
    · simp [get_statistics, h1, h2] at hs
  · simp [get_statistics, h1] at hs

/-- C9 witness: the theorem applied to `demoStore`. -/
theorem c9_concept_count_matches_graph_witness :
    (demoStore.nodeRows.map NodeRow.id).Nodup ∧
    get_statistics demoStore = .ok ⟨2, 1⟩ ∧
    get_graph_data demoStore = .ok demoGraph ∧
    (Statistics.mk 2 1).conceptCount = (demoGraph.nodes.map NodeView.id).dedup.length :=
  ⟨by decide, rfl, rfl,
   c9_concept_count_matches_graph demoStore (by decide) ⟨2, 1⟩ demoGraph rfl rfl⟩

/-- C1 (code bug): with a source or target id that resolves to no
Concept, no edge is created, but the handler's own
`HTTPException(404, "Concepts not found")` is raised inside its `try`
block and caught by the blanket `except Exception`, which re-raises it
as HTTP 500 — so the caller observes 500, never 404. The closing
conjunct shows the endpoint can never surface any error status other
than 500. -/
theorem c1_missing_endpoints_surface_500_not_404 :
    (create_relationship emptyStore ⟨"3", "7", "RELATED_TO"⟩).response =
      .error ⟨500, "Error creating relationship: 404: Concepts not found"⟩ ∧
    (create_relationship emptyStore ⟨"3", "7", "RELATED_TO"⟩).store = emptyStore ∧
    (∀ st r e, (create_relationship st r).response = .error e → e.statusCode = 500) := by
  refine ⟨rfl, rfl, ?_⟩
  intro st r e h
  rcases hs : pyInt r.source with _ | s
  · simp only [create_relationship, hs] at h
    injection h with h2
    rw [← h2]
  · rcases ht : pyInt r.target with _ | t
    · simp only [create_relationship, hs, ht] at h
      injection h with h2
      rw [← h2]
    · rcases hc : st.createQErr with _ | m
      · simp only [create_relationship, hs, ht, hc] at h
        split at h
        · exact Except.noConfusion h
        · injection h with h2
          rw [← h2]
      · simp only [create_relationship, hs, ht, hc] at h
        injection h with h2
        rw [← h2]

/-- C10: when the source or target field is not a decimal-integer string,
`int()` raises before any statement is issued to the store: nothing is
sent, no edge is created, and the caller gets an HTTP 500 error (never a
success response). -/
theorem c10_nonnumeric_id_fails_before_mutation (st : Store) (r : RelationshipCreate)
    (h : pyInt r.source = none ∨ pyInt r.target = none) :
    (create_relationship st r).issued = [] ∧
    (create_relationship st r).store = st ∧
    ∃ d, (create_relationship st r).response = .error ⟨500, d⟩ := by
  rcases h with h | h
  · simp [create_relationship, h]
  · rcases hs : pyInt r.source with _ | s
    · simp [create_relationship, hs]
    · simp [create_relationship, hs, h]

/-- C10 witness: the theorem applied to the non-numeric source "abc". -/
theorem c10_nonnumeric_id_witness :
    (pyInt "abc" = none ∨ pyInt "7" = none) ∧
    ((create_relationship emptyStore ⟨"abc", "7", "RELATED_TO"⟩).issued = [] ∧
     (create_relationship emptyStore ⟨"abc", "7", "RELATED_TO"⟩).store = emptyStore ∧
     ∃ d, (create_relationship emptyStore ⟨"abc", "7", "RELATED_TO"⟩).response =
        .error ⟨500, d⟩) :=
  ⟨Or.inl rfl,
   c10_nonnumeric_id_fails_before_mutation emptyStore ⟨"abc", "7", "RELATED_TO"⟩ (Or.inl rfl)⟩

set_option maxRecDepth 20000 in
/-- C2 (code bug): the caller-supplied `type` is spliced verbatim into
the edge-type position of the statement (`.format`), with no rejection
and no encoding: every backtick in `type` lands in the statement (first
conjunct), so `injectionType` — carrying one backtick — escapes the
backtick-quoted token (3 backticks in the statement instead of 2) and
smuggles a `DETACH DELETE` clause into what the store is asked to run,
while the endpoint happily reports success. -/
theorem c2_type_spliced_verbatim (t : String) :
    countChar '`' (relationshipQuery t) = 2 + countChar '`' t ∧
    countChar '`' injectionType = 1 ∧
    strContainsB (relationshipQuery injectionType) "DETACH DELETE" = true ∧
    (create_relationship demoStore ⟨"0", "1", injectionType⟩).issued =
      [relationshipQuery injectionType] ∧
    (create_relationship demoStore ⟨"0", "1", injectionType⟩).response =
      .ok ⟨"0", "1", injectionType⟩ := by
  refine ⟨?_, rfl, rfl, rfl, rfl⟩
  have h1 : countChar '`' relQueryPre = 1 := rfl
  have h2 : countChar '`' relQueryPost = 1 := rfl
  rw [relationshipQuery, countChar_append, countChar_append, h1, h2]
  omega

/-- C3 counterexample: two successive builder start calls, each with the
launch script exiting 0, result in two script invocations — not one —
and the second call is reported as success exactly like the first: the
server-side supervisor tracks no running/stopped state and prevents
nothing. -/
theorem c3_counterexample_double_launch :
    (supervisorTrace [(demoBuilderParams, .completed 0 "started" ""),
        (demoBuilderParams, .completed 0 "started" "")]).length = 2 ∧
    (start_builder demoBuilderParams (.completed 0 "started" "")).response =
      .ok ⟨"success", "Builder started successfully", "started"⟩ :=
  ⟨rfl, rfl⟩

/-- C3 amended: the server keeps no per-worker state between start
calls; every start call unconditionally invokes the worker's launch
script, so two successive start calls for the same worker issue two
launches, and each call's response depends only on its own script
outcome (both report success when their script exits 0). Any
single-instance enforcement lies in the external scripts, outside the
API layer. -/
theorem c3_every_start_launches (p₁ p₂ : BuilderParams) (o₁ o₂ : CmdOutcome)
    (out₁ out₂ err₁ err₂ : String) :
    supervisorTrace [(p₁, o₁), (p₂, o₂)] = [builderCommand p₁, builderCommand p₂] ∧
    ((o₁ = .completed 0 out₁ err₁ ∧ o₂ = .completed 0 out₂ err₂) →
      (start_builder p₁ o₁).response = .ok ⟨"success", "Builder started successfully", out₁⟩ ∧
      (start_builder p₂ o₂).response = .ok ⟨"success", "Builder started successfully", out₂⟩) := by
  constructor
  · rfl
  · rintro ⟨rfl, rfl⟩
    exact ⟨rfl, rfl⟩

/-- C3 amended witness: the amended theorem applied to two concrete
zero-exit start calls. -/
theorem c3_every_start_launches_witness :
    supervisorTrace [(demoBuilderParams, .completed 0 "a" ""),
        (demoBuilderParams, .completed 0 "b" "")] =
      [builderCommand demoBuilderParams, builderCommand demoBuilderParams] ∧
    ((start_builder demoBuilderParams (.completed 0 "a" "")).response =
        .ok ⟨"success", "Builder started successfully", "a"⟩ ∧
      (start_builder demoBuilderParams (.completed 0 "b" "")).response =
        .ok ⟨"success", "Builder started successfully", "b"⟩) :=
  ⟨(c3_every_start_launches demoBuilderParams demoBuilderParams _ _ "a" "b" "" "").1,
   (c3_every_start_launches demoBuilderParams demoBuilderParams _ _ "a" "b" "" "").2 ⟨rfl, rfl⟩⟩

/-- C5: stopping a worker that is not running (spec-modelled stop-script
behaviour: the script exits 0 even when there is nothing to stop)
returns a success response, not a `LaunchError`: stop is idempotent. -/
theorem c5_stop_idempotent :
    (stop_builder (stopScriptOutcome false)).response =
      .ok ⟨"success", "Builder stopped successfully", "no process running"⟩ ∧
    (stop_enricher (stopScriptOutcome false)).response =
      .ok ⟨"success", "Enricher stopped successfully", "no process running"⟩ ∧
    (stop_builder (stopScriptOutcome true)).response =
      .ok ⟨"success", "Builder stopped successfully", "terminated"⟩ :=
  ⟨rfl, rfl, rfl⟩

/-- C7: a worker start call returns status "success" carrying the
captured stdout when the launch script exits 0; a non-zero exit yields
HTTP 500 whose detail contains the script's stderr text; a spawn
failure also yields HTTP 500. -/
theorem c7_start_launch_outcomes (bp : BuilderParams) (ep : EnricherParams) (o : CmdOutcome) :
    (∀ out err, o = .completed 0 out err →
      (start_builder bp o).response = .ok ⟨"success", "Builder started successfully", out⟩ ∧
      (start_enricher ep o).response = .ok ⟨"success", "Enricher started successfully", out⟩) ∧
    (∀ ec out err, o = .completed ec out err → ec ≠ 0 →
      ∃ d₁ d₂, (start_builder bp o).response = .error ⟨500, d₁⟩ ∧
        strContainsB d₁ err = true ∧
        (start_enricher ep o).response = .error ⟨500, d₂⟩ ∧
        strContainsB d₂ err = true) ∧
    (∀ msg, o = .spawnFailure msg →
      ∃ d₁ d₂, (start_builder bp o).response = .error ⟨500, d₁⟩ ∧
        (start_enricher ep o).response = .error ⟨500, d₂⟩) := by
  refine ⟨?_, ?_, ?_⟩
  · rintro out err rfl
    exact ⟨rfl, rfl⟩
  · rintro ec out err rfl hne
    refine ⟨"Error starting builder: " ++
        strOfExc (.httpException 500 ("Command failed: " ++ err)),
      "Error starting enricher: " ++
        strOfExc (.httpException 500 ("Command failed: " ++ err)), ?_, ?_, ?_, ?_⟩
    · simp [start_builder, run_command, hne]
    · exact strContainsB_append_left _ _ _ (strContainsB_append_left _ _ _
        (strContainsB_append_left _ _ _ (strContainsB_append_left _ _ _
          (strContainsB_self err))))
    · simp [start_enricher, run_command, hne]
    · exact strContainsB_append_left _ _ _ (strContainsB_append_left _ _ _
        (strContainsB_append_left _ _ _ (strContainsB_append_left _ _ _
          (strContainsB_self err))))
  · rintro msg rfl
    exact ⟨"Error starting builder: " ++ msg, "Error starting enricher: " ++ msg, rfl, rfl⟩

/-- C7 witness: the theorem applied to a launch probe that exits 1 with
stderr "boom". -/
theorem c7_start_launch_outcomes_witness :
    ∃ d₁ d₂,
      (start_builder demoBuilderParams (.completed 1 "" "boom")).response =
        .error ⟨500, d₁⟩ ∧
      strContainsB d₁ "boom" = true ∧
      (start_enricher demoEnricherParams (.completed 1 "" "boom")).response =
        .error ⟨500, d₂⟩ ∧
      strContainsB d₂ "boom" = true :=
  (c7_start_launch_outcomes demoBuilderParams demoEnricherParams
    (.completed 1 "" "boom")).2.1 1 "" "boom" rfl (by decide)

/-- C1 witness: the never-any-status-but-500 conjunct applied at a
concrete erroring input. -/
theorem c1_missing_endpoints_witness :
    (create_relationship emptyStore ⟨"3", "7", "RELATED_TO"⟩).response =
      .error ⟨500, "Error creating relationship: 404: Concepts not found"⟩ ∧
    (HTTPError.mk 500 "Error creating relationship: 404: Concepts not found").statusCode = 500 :=
  ⟨rfl, c1_missing_endpoints_surface_500_not_404.2.2 emptyStore ⟨"3", "7", "RELATED_TO"⟩
    ⟨500, "Error creating relationship: 404: Concepts not found"⟩ rfl⟩
